import Mathlib

/-!
Shallow embedding of the Project-University-Databank repository
(src/helpsheet.py, src/main.py, src/testtable.py) and proofs about it.

The repository is a SQLite tutorial script plus two schema-creation
scripts.  The behavioural core is SECTION 8 of helpsheet.py: a transfer
of 0.2 gpa points from one student row to another, two UPDATE statements
wrapped in try/except with commit on success and rollback on a caught
sqlite3.Error.

The embedding has two levels.  Structural properties (which table gets
committed, error propagation, frame conditions, the insert/read-back
round trip) are proved over a table whose gpa column is an exact
rational; they do not depend on how REAL arithmetic rounds.  Arithmetic
properties are proved over a second table whose gpa column is `FP`, an
exact model of IEEE-754 binary64 (the storage class of SQLite REAL):
dyadic values with round-to-nearest-even at 53 significant bits, so
that 3.8 - 0.2 computes to 3.5999999999999996 exactly as the engine
does.
-/

/-- A row of the `students` table created in SECTION 2 of helpsheet.py:
`id INTEGER PRIMARY KEY AUTOINCREMENT, name TEXT NOT NULL, email TEXT
UNIQUE, age INTEGER, gpa REAL, enrolled INTEGER DEFAULT 1`. -/
structure Student where
  id : Nat
  name : String
  email : String
  age : Int
  gpa : ℚ
  enrolled : Int
deriving DecidableEq, Repr

/-- Connection state: the durably committed table and the working table
seen by statements executed since the last transaction boundary.  A
transaction boundary (commit or rollback) makes the two coincide. -/
structure DB where
  committed : List Student
  working : List Student
deriving DecidableEq, Repr

/-- `connection.commit()`: the working state becomes durable. -/
def commitDB (db : DB) : DB :=
  ⟨db.working, db.working⟩

/-- `connection.rollback()`: uncommitted work is discarded and the
working state reverts to the last committed state. -/
def rollbackDB (db : DB) : DB :=
  ⟨db.committed, db.committed⟩

/-- `UPDATE students SET gpa = gpa + d WHERE name = ?` (helpsheet.py
lines 350-355 use d = -0.2 for the source and d = +0.2 for the
destination).  Every row whose name equals the key has its gpa shifted
by `d`; all other rows and all other attributes are untouched. -/
def updateGpaBy (key : String) (d : ℚ) (tbl : List Student) : List Student :=
  tbl.map fun s => if s.name = key then { s with gpa := s.gpa + d } else s

/-- The two UPDATE statements of SECTION 8 applied in program order:
first debit the source, then credit the destination. -/
def applyTransfer (src dst : String) (amt : ℚ) (tbl : List Student) : List Student :=
  updateGpaBy dst amt (updateGpaBy src (-amt) tbl)

/-- Store faults injected at the two `cursor.execute` calls of the
transfer.  A gpa update on the `students` table violates no constraint,
so the `sqlite3.Error` caught by SECTION 8 can only come from the store
itself (I/O failure, locked database, ...); these flags model such a
fault at the first or second execute.  A faulted statement has no
effect on the table (SQLite statements are atomic). -/
structure FaultEnv where
  fail1 : Bool
  fail2 : Bool
deriving DecidableEq, Repr

/-- The fault-free environment: both executes succeed. -/
def noFault : FaultEnv :=
  ⟨false, false⟩

/-- Observable outcome of the SECTION 8 try/except block. `success`
records which message was printed (the commit path or the except path);
`escaped` is the exception propagating out of the block, if any — the
except handler of helpsheet.py lines 361-365 rolls back and prints but
contains no raise, so no code path re-raises. -/
structure TransferResult where
  db : DB
  success : Bool
  escaped : Option String
deriving DecidableEq, Repr

/-- SECTION 8 of helpsheet.py (lines 347-365), generalised over the two
keys and the amount (the script instantiates it with source `Alice
Johnson`, destination `Bob Smith`, amount 0.2):
```
try:
    cursor.execute(UPDATE gpa = gpa - amt WHERE name = src)
    cursor.execute(UPDATE gpa = gpa + amt WHERE name = dst)
    connection.commit()
except sqlite3.Error as error:
    connection.rollback()
    print(error)
```
-/
def transferGpa (src dst : String) (amt : ℚ) (env : FaultEnv) (db : DB) : TransferResult :=
  match env.fail1, env.fail2 with
  | true, _ =>
      ⟨rollbackDB db, false, none⟩
  | false, true =>
      ⟨rollbackDB ⟨db.committed, updateGpaBy src (-amt) db.working⟩, false, none⟩
  | false, false =>
      ⟨commitDB ⟨db.committed, applyTransfer src dst amt db.working⟩, true, none⟩

/-- C1: every execution of the transfer ends in exactly one of two
states — on the success path both gpa mutations are durably committed,
and on the except path the committed table is exactly the pre-call
committed table, so no state with only one of the two updates is ever
durable.  The two disjuncts are mutually exclusive via the `success`
flag. -/
theorem transfer_all_or_nothing (src dst : String) (amt : ℚ) (env : FaultEnv) (db : DB) :
    ((transferGpa src dst amt env db).success = true ∧
      (transferGpa src dst amt env db).db.committed = applyTransfer src dst amt db.working ∧
      (transferGpa src dst amt env db).db.working = applyTransfer src dst amt db.working) ∨
    ((transferGpa src dst amt env db).success = false ∧
      (transferGpa src dst amt env db).db.committed = db.committed ∧
      (transferGpa src dst amt env db).db.working = db.committed) := by
  obtain ⟨f1, f2⟩ := env
  cases f1 <;> cases f2 <;>
    simp [transferGpa, commitDB, rollbackDB]

/-- C8: committing twice in a row with no mutation in between is the
same observable store state as committing once. -/
theorem commit_idempotent (db : DB) :
    commitDB (commitDB db) = commitDB db :=
  rfl

/-- The two rows SECTION 8 operates on, with the gpa values they hold
when the transfer runs (Alice 3.8 from SECTION 3; Bob 3.9 after the
SECTION 5 update), in a clean transaction state. -/
def aliceRow : Student :=
  ⟨1, "Alice Johnson", "alice@email.com", 20, 38/10, 1⟩

def bobRow : Student :=
  ⟨2, "Bob Smith", "bob@email.com", 22, 39/10, 1⟩

def dbAB : DB :=
  ⟨[aliceRow, bobRow], [aliceRow, bobRow]⟩

/-- C2 counterexample: at a concrete store fault on the first mutation,
the operation finishes with no exception escaping the try/except block
(`escaped = none`) and the script continues on the failure-message path
— the underlying store error is swallowed, not re-raised to the caller
as the claim states. -/
theorem transfer_error_not_reraised :
    (⟨true, false⟩ : FaultEnv).fail1 = true ∧
    (transferGpa "Alice Johnson" "Bob Smith" (1/5) ⟨true, false⟩ dbAB).escaped = none ∧
    (transferGpa "Alice Johnson" "Bob Smith" (1/5) ⟨true, false⟩ dbAB).success = false := by
  decide

/-- C2 (amended): when either mutation raises a store-level error, the
operation issues a rollback (the final state is the pre-call committed
state on both the durable and the working side) and then catches the
error, reporting failure only through a printed message: no error
propagates to the caller — the error is swallowed. -/
theorem transfer_rollback_and_swallow (src dst : String) (amt : ℚ) (env : FaultEnv) (db : DB)
    (hf : env.fail1 = true ∨ env.fail2 = true) :
    (transferGpa src dst amt env db).db = ⟨db.committed, db.committed⟩ ∧
    (transferGpa src dst amt env db).success = false ∧
    (transferGpa src dst amt env db).escaped = none := by
  obtain ⟨f1, f2⟩ := env
  cases f1
  · cases f2
    · simp at hf
    · simp [transferGpa, rollbackDB]
  · simp [transferGpa, rollbackDB]

theorem transfer_rollback_and_swallow_witness :
    (transferGpa "Alice Johnson" "Bob Smith" (1/5) ⟨false, true⟩ dbAB).db
        = ⟨dbAB.committed, dbAB.committed⟩ ∧
    (transferGpa "Alice Johnson" "Bob Smith" (1/5) ⟨false, true⟩ dbAB).success = false ∧
    (transferGpa "Alice Johnson" "Bob Smith" (1/5) ⟨false, true⟩ dbAB).escaped = none :=
  transfer_rollback_and_swallow "Alice Johnson" "Bob Smith" (1/5) ⟨false, true⟩ dbAB
    (Or.inr rfl)

/-- C9: the two UPDATE statements of the transfer keep the table length,
preserve every attribute other than gpa (id, name, email, age, enrolled)
of every row, and leave rows whose name is neither the source nor the
destination key entirely unchanged; and whatever the fault environment,
the committed table after the operation is either exactly the image of
the two updates or exactly the pre-call committed table. -/
theorem transfer_frame (src dst : String) (amt : ℚ) (tbl : List Student) :
    (applyTransfer src dst amt tbl).length = tbl.length ∧
    (∀ i (h : i < tbl.length) (h2 : i < (applyTransfer src dst amt tbl).length),
      ((applyTransfer src dst amt tbl)[i].id = tbl[i].id ∧
        (applyTransfer src dst amt tbl)[i].name = tbl[i].name ∧
        (applyTransfer src dst amt tbl)[i].email = tbl[i].email ∧
        (applyTransfer src dst amt tbl)[i].age = tbl[i].age ∧
        (applyTransfer src dst amt tbl)[i].enrolled = tbl[i].enrolled) ∧
      (tbl[i].name ≠ src → tbl[i].name ≠ dst →
        (applyTransfer src dst amt tbl)[i] = tbl[i])) ∧
    (∀ env db, (transferGpa src dst amt env db).db.committed
        = applyTransfer src dst amt db.working ∨
      (transferGpa src dst amt env db).db.committed = db.committed) := by
  refine ⟨by simp [applyTransfer, updateGpaBy], ?_, ?_⟩
  · intro i h h2
    simp only [applyTransfer, updateGpaBy, List.getElem_map]
    by_cases h1 : tbl[i].name = src
    · by_cases hd1 : tbl[i].name = dst
      · have hsd : src = dst := h1.symm.trans hd1
        simp [h1, hd1, hsd]
      · have hsd : ¬ src = dst := fun e => hd1 (h1.trans e)
        have hds : ¬ dst = src := fun e => hsd e.symm
        simp [h1, hd1, hsd, hds]
    · by_cases hd1 : tbl[i].name = dst
      · have hds : ¬ dst = src := fun e => h1 (hd1.trans e)
        have hsd : ¬ src = dst := fun e => hds e.symm
        simp [h1, hd1, hsd, hds]
      · simp [h1, hd1]
  · intro env db
    obtain ⟨f1, f2⟩ := env
    cases f1
    · cases f2
      · exact Or.inl rfl
      · exact Or.inr rfl
    · exact Or.inr rfl

def carolRow : Student :=
  ⟨3, "Carol White", "carol@email.com", 21, 39/10, 1⟩

theorem transfer_frame_witness :
    (applyTransfer "Alice Johnson" "Bob Smith" (1/5) [carolRow]).get ⟨0, by decide⟩
      = carolRow := by
  have h := transfer_frame "Alice Johnson" "Bob Smith" (1/5) [carolRow]
  exact (h.2.1 0 (by decide) (by decide)).2 (by decide) (by decide)

/-- The `students` table plus the AUTOINCREMENT sequence: SECTION 2
drops and recreates the table, so ids are assigned 1, 2, 3, ... in
insertion order. -/
structure StudentsDB where
  tbl : List Student
  seq : Nat
deriving DecidableEq, Repr

/-- `INSERT INTO students (name, email, age, gpa) VALUES (?, ?, ?, ?)`
(SECTION 3, lines 86-89).  The store enforces the `email TEXT UNIQUE`
constraint: a duplicate email raises an IntegrityError (demonstrated by
SECTION 11); otherwise the row is appended with the next id and the
`enrolled` default 1. -/
def insertStudent (nm email : String) (age : Int) (gpa : ℚ) (db : StudentsDB) :
    Except String StudentsDB :=
  match db.tbl.any fun s => s.email = email with
  | true => Except.error "UNIQUE constraint failed: students.email"
  | false => Except.ok ⟨db.tbl ++ [⟨db.seq + 1, nm, email, age, gpa, 1⟩], db.seq + 1⟩

/-- `SELECT * FROM students WHERE name = ?`: the rows whose name equals
the key, in table order. -/
def selectByName (key : String) (tbl : List Student) : List Student :=
  tbl.filter fun s => s.name = key

theorem selectByName_nil (key : String) (tbl : List Student)
    (h : ∀ s ∈ tbl, s.name ≠ key) : selectByName key tbl = [] := by
  induction tbl with
  | nil => rfl
  | cons s t ih =>
      have hs : s.name ≠ key := h s (List.mem_cons_self s t)
      have ht : ∀ x ∈ t, x.name ≠ key := fun x hx => h x (List.mem_cons_of_mem s hx)
      unfold selectByName at ih ⊢
      rw [List.filter_cons]
      simp [hs, ih ht]

/-- C7: a successfully inserted record, read back by its key when no
other row shares that name, comes back as exactly one row whose
attributes (id, name, email, age, gpa, enrolled) are exactly the values
the insert stored: the caller's four values, the next sequence id, and
the enrolled default 1. -/
theorem insert_roundtrip (nm email : String) (age : Int) (gpa : ℚ) (db db' : StudentsDB)
    (hfresh : ∀ s ∈ db.tbl, s.name ≠ nm)
    (hok : insertStudent nm email age gpa db = Except.ok db') :
    selectByName nm db'.tbl = [⟨db.seq + 1, nm, email, age, gpa, 1⟩] := by
  unfold insertStudent at hok
  cases hany : db.tbl.any fun s => s.email = email
  · rw [hany] at hok
    simp only at hok
    rw [Except.ok.injEq] at hok
    subst hok
    show selectByName nm (db.tbl ++ [⟨db.seq + 1, nm, email, age, gpa, 1⟩])
      = [⟨db.seq + 1, nm, email, age, gpa, 1⟩]
    unfold selectByName
    rw [List.filter_append]
    have h1 : List.filter (fun s => decide (s.name = nm)) db.tbl = [] :=
      selectByName_nil nm db.tbl hfresh
    rw [h1]
    simp
  · rw [hany] at hok
    simp only at hok
    exact absurd hok (by simp)

theorem insert_roundtrip_witness :
    selectByName "Alice Johnson" [⟨1, "Alice Johnson", "alice@email.com", 20, 38/10, 1⟩]
      = [⟨1, "Alice Johnson", "alice@email.com", 20, 38/10, 1⟩] :=
  insert_roundtrip "Alice Johnson" "alice@email.com" 20 (38/10) ⟨[], 0⟩
    ⟨[⟨1, "Alice Johnson", "alice@email.com", 20, 38/10, 1⟩], 1⟩
    (by simp) rfl

/-- An entry in the parenthesised item list of a CREATE TABLE
statement: either a column definition or a table constraint (FOREIGN
KEY ..., CHECK ...). -/
inductive TableItem where
  | column (colName colType : String)
  | tableConstraint (descr : String)
deriving DecidableEq, Repr

def tailOnlyConstraints : List TableItem → Bool
  | [] => true
  | TableItem.tableConstraint _ :: r => tailOnlyConstraints r
  | TableItem.column _ _ :: _ => false

def restWellFormed : List TableItem → Bool
  | [] => true
  | TableItem.column _ _ :: r => restWellFormed r
  | TableItem.tableConstraint _ :: r => tailOnlyConstraints r

/-- SQLite grammar for CREATE TABLE: one or more column definitions,
then zero or more table constraints.  Once a table constraint has
appeared, a further column definition is a syntax error (verified
against SQLite 3.40: the active `professors` statement of main.py is
rejected with `near "PhoneNumber": syntax error`). -/
def itemsWellFormed : List TableItem → Bool
  | TableItem.column _ _ :: r => restWellFormed r
  | _ => false

/-- A `CREATE TABLE IF NOT EXISTS <table>(<items>)` statement. -/
structure CreateStmt where
  table : String
  items : List TableItem
deriving DecidableEq, Repr

/-- The set of tables of a database file: name and item list of each
created table, in creation order. -/
abbrev Schema := List (Prod String (List TableItem))

def hasTable (nm : String) (sc : Schema) : Bool :=
  sc.any fun t => t.1 = nm

/-- Executing one CREATE TABLE IF NOT EXISTS: the statement is parsed
first (a malformed item list is a syntax error even if the table
exists); then an existing table makes the statement a no-op, otherwise
the table is created. -/
def createTableIfNotExists (sc : Schema) (c : CreateStmt) : Except String Schema :=
  match itemsWellFormed c.items with
  | false => Except.error ("syntax error in CREATE TABLE " ++ c.table)
  | true =>
      match hasTable c.table sc with
      | true => Except.ok sc
      | false => Except.ok (sc ++ [(c.table, c.items)])

/-- Run a script's CREATE statements in order.  An uncaught error
aborts the script (nothing in main.py or testtable.py catches), but the
tables already created persist: the Python sqlite3 module executes DDL
outside any open transaction. -/
def runStmts (sc : Schema) : List CreateStmt → Prod Schema (Option String)
  | [] => (sc, none)
  | c :: rest =>
      match createTableIfNotExists sc c with
      | Except.ok sc2 => runStmts sc2 rest
      | Except.error e => (sc, some e)

/-- `CREATE TABLE IF NOT EXISTS colleges(...)` — the identical
statement text appears in main.py lines 12-18 and testtable.py lines
6-12. -/
def collegesStmt : CreateStmt :=
  ⟨"colleges",
   [TableItem.column "CollegeID" "INTEGER PRIMARY KEY AUTOINCREMENT",
    TableItem.column "CollegeName" "TEXT NOT NULL",
    TableItem.column "DeanID" "INTEGER",
    TableItem.tableConstraint "FOREIGN KEY (DeanID) REFERENCES professors(ProfessorID)"]⟩

/-- `CREATE TABLE IF NOT EXISTS departments(...)` — main.py lines
23-32. -/
def departmentsStmt : CreateStmt :=
  ⟨"departments",
   [TableItem.column "DeptID" "INTEGER PRIMARY KEY",
    TableItem.column "DeptName" "TEXT NOT NULL",
    TableItem.column "CollegeID" "INTEGER NOT NULL",
    TableItem.column "DeptHeadID" "INTEGER NOT NULL",
    TableItem.tableConstraint "FOREIGN KEY (CollegeID) REFERENCES colleges(CollegeID)",
    TableItem.tableConstraint "FOREIGN KEY (DeptHeadID) REFERENCES professors(ProfessorID)"]⟩

/-- `CREATE TABLE IF NOT EXISTS professors(...)` — main.py lines 53-61.
The CHECK table constraint sits between the DateOfBirth and PhoneNumber
column definitions, so the item list is ill-formed. -/
def professorsStmt : CreateStmt :=
  ⟨"professors",
   [TableItem.column "ProfessorID" "INTEGER PRIMARY KEY AUTOINCREMENT",
    TableItem.column "FirstName" "TEXT NOT NULL",
    TableItem.column "LastName" "TEXT NOT NULL",
    TableItem.column "DateOfBirth" "DATE NOT NULL",
    TableItem.tableConstraint "CHECK (strftime percent-F minus DateOfBirth at least 18)",
    TableItem.column "PhoneNumber" "TEXT UNIQUE NOT NULL",
    TableItem.column "OfficeLocation" "TEXT NOT NULL"]⟩

/-- The three statements main.py actually executes, in order. -/
def mainStmts : List CreateStmt :=
  [collegesStmt, departmentsStmt, professorsStmt]

/-- The single statement testtable.py executes. -/
def testtableStmts : List CreateStmt :=
  [collegesStmt]

/-- C10: evaluation of the two scripts.  testtable.py is idempotent and
error-free on a second run, but main.py raises a syntax error at the
`professors` statement on EVERY run — the first included — because its
CHECK constraint sits between two column definitions; the claim that
the second run raises no error fails, even though the set of tables
after two runs does equal the set after one. -/
theorem main_script_create_error :
    itemsWellFormed professorsStmt.items = false ∧
    (runStmts [] mainStmts).2 = some ("syntax error in CREATE TABLE " ++ "professors") ∧
    (runStmts (runStmts [] mainStmts).1 mainStmts).2.isSome = true ∧
    (runStmts (runStmts [] mainStmts).1 mainStmts).1 = (runStmts [] mainStmts).1 ∧
    (runStmts [] testtableStmts).2 = none ∧
    runStmts (runStmts [] testtableStmts).1 testtableStmts
      = ((runStmts [] testtableStmts).1, none) := by
  decide

/-- Number of binary digits of a natural number (0 for 0), computed
with structural fuel so that it evaluates inside the kernel. -/
def nbitsAux : Nat → Nat → Nat
  | 0, _ => 0
  | fuel + 1, n => if n = 0 then 0 else nbitsAux fuel (n / 2) + 1

def nbits (n : Nat) : Nat :=
  nbitsAux n n

/-- An IEEE-754 binary64 value (the storage class behind SQLite REAL),
represented exactly as the dyadic rational `mant * 2 ^ expo`.  The
model keeps the format's 53 significant bits and round-to-nearest,
ties-to-even, and leaves the exponent unbounded: every value this
program touches is a normal double far from overflow and underflow, so
on them the model agrees bit-for-bit with the engine (checked against
SQLite 3.40 / IEEE doubles: parsing 3.8, 0.2, 3.9, ... and computing
3.8 - 0.2 = 3.5999999999999996, 3.9 + 0.2 = the double 4.1). -/
structure FP where
  mant : Int
  expo : Int
deriving DecidableEq, Repr

def negFP (a : FP) : FP :=
  ⟨-a.mant, a.expo⟩

/-- Round the dyadic value `m * 2 ^ e` to 53 significant bits, nearest,
ties to even — the binary64 rounding step after an exact operation. -/
def roundFP (m : Int) (e : Int) : FP :=
  let n := m.natAbs
  let bits := nbits n
  if bits ≤ 53 then ⟨m, e⟩
  else
    let k := bits - 53
    let q := n / 2 ^ k
    let r := n % 2 ^ k
    let half := 2 ^ (k - 1)
    let q2 := if r < half then q
      else if half < r then q + 1
      else if q % 2 = 0 then q else q + 1
    ⟨if m < 0 then -(q2 : Int) else (q2 : Int), e + (k : Int)⟩

/-- Double addition: exact sum of the two dyadic values, then one
binary64 rounding — IEEE-754 correctly rounded addition. -/
def addFP (a b : FP) : FP :=
  let e := min a.expo b.expo
  roundFP (a.mant * 2 ^ (a.expo - e).toNat + b.mant * 2 ^ (b.expo - e).toNat) e

/-- Double subtraction `a - b`, as correctly rounded addition of the
negation. -/
def subFP (a b : FP) : FP :=
  addFP a (negFP b)

/-- Numeric comparison of two doubles (SQL `<`): comparison of their
exact values, via aligned integer mantissas. -/
def ltFP (a b : FP) : Bool :=
  let e := min a.expo b.expo
  a.mant * 2 ^ (a.expo - e).toNat < b.mant * 2 ^ (b.expo - e).toNat

def leFP (a b : FP) : Bool :=
  !(ltFP b a)

/-- The exact rational value of a double. -/
def toRat (a : FP) : ℚ :=
  (a.mant : ℚ) * 2 ^ a.expo

/-- The binary64 value of the non-negative decimal literal `p / q`
(e.g. `3.8` is `floatOfDecimal 38 10`): the nearest double, ties to
even — exactly what Python's and SQLite's correctly rounded
decimal-to-double conversion stores for the literal. -/
def floatOfDecimal (p q : Nat) : FP :=
  if p = 0 ∨ q = 0 then ⟨0, 0⟩
  else
    let t0 : Int := (nbits p : Int) - (nbits q : Int)
    -- largest t with 2 ^ t ≤ p / q (t0 overshoots by at most one)
    let t : Int :=
      if (0 ≤ t0 ∧ q * 2 ^ t0.toNat ≤ p) ∨ (t0 < 0 ∧ q ≤ p * 2 ^ (-t0).toNat) then t0
      else t0 - 1
    let shift : Int := 52 - t
    let N := if 0 ≤ shift then p * 2 ^ shift.toNat else p
    let D := if 0 ≤ shift then q else q * 2 ^ (-shift).toNat
    let m := N / D
    let r := N % D
    let m2 := if 2 * r < D then m
      else if D < 2 * r then m + 1
      else if m % 2 = 0 then m else m + 1
    ⟨(m2 : Int), t - 52⟩

/-- A `students` row with its gpa held as the binary64 value the store
actually keeps (REAL storage class). -/
structure StudentF where
  id : Nat
  name : String
  email : String
  age : Int
  gpa : FP
  enrolled : Int
deriving DecidableEq, Repr

/-- Connection state over the binary64-valued table. -/
structure DBF where
  committed : List StudentF
  working : List StudentF
deriving DecidableEq, Repr

def commitDBF (db : DBF) : DBF :=
  ⟨db.working, db.working⟩

def rollbackDBF (db : DBF) : DBF :=
  ⟨db.committed, db.committed⟩

/-- `UPDATE students SET gpa = gpa + d WHERE name = ?` under REAL
arithmetic: each matching row stores the correctly rounded double sum
of its gpa and `d`. -/
def updateGpaByF (key : String) (d : FP) (tbl : List StudentF) : List StudentF :=
  tbl.map fun s => if s.name = key then { s with gpa := addFP s.gpa d } else s

/-- The two UPDATE statements of SECTION 8 in program order, over
binary64 values. -/
def applyTransferF (src dst : String) (amt : FP) (tbl : List StudentF) : List StudentF :=
  updateGpaByF dst amt (updateGpaByF src (negFP amt) tbl)

structure TransferResultF where
  db : DBF
  success : Bool
  escaped : Option String
deriving DecidableEq, Repr

/-- SECTION 8 of helpsheet.py over the binary64-valued table: same
try/commit/except/rollback structure as `transferGpa`, with the gpa
arithmetic performed in correctly rounded double precision. -/
def transferGpaF (src dst : String) (amt : FP) (env : FaultEnv) (db : DBF) : TransferResultF :=
  match env.fail1, env.fail2 with
  | true, _ =>
      ⟨rollbackDBF db, false, none⟩
  | false, true =>
      ⟨rollbackDBF ⟨db.committed, updateGpaByF src (negFP amt) db.working⟩, false, none⟩
  | false, false =>
      ⟨commitDBF ⟨db.committed, applyTransferF src dst amt db.working⟩, true, none⟩

/-- Observer: how many rows the key matches (`WHERE name = ?`). -/
def countNameF (key : String) : List StudentF → Nat
  | [] => 0
  | s :: t => (if s.name = key then 1 else 0) + countNameF key t

/-- Observer: the gpa column of the rows the key matches, in table
order (what `SELECT gpa FROM students WHERE name = ?` returns). -/
def gpaValsF (key : String) : List StudentF → List FP
  | [] => []
  | s :: t => if s.name = key then s.gpa :: gpaValsF key t else gpaValsF key t

theorem countNameF_updateGpaByF (k k2 : String) (d : FP) (tbl : List StudentF) :
    countNameF k (updateGpaByF k2 d tbl) = countNameF k tbl := by
  induction tbl with
  | nil => rfl
  | cons s t ih =>
      by_cases h : s.name = k2
      · simp [updateGpaByF, countNameF, h] at ih ⊢
        exact ih
      · simp [updateGpaByF, countNameF, h] at ih ⊢
        exact ih

theorem gpaValsF_updateGpaByF_self (k : String) (d : FP) (tbl : List StudentF) :
    gpaValsF k (updateGpaByF k d tbl) = (gpaValsF k tbl).map fun g => addFP g d := by
  induction tbl with
  | nil => rfl
  | cons s t ih =>
      by_cases h : s.name = k
      · simp [updateGpaByF, gpaValsF, h] at ih ⊢
        exact ih
      · simp [updateGpaByF, gpaValsF, h] at ih ⊢
        exact ih

theorem gpaValsF_updateGpaByF_ne (k k2 : String) (hne : k ≠ k2) (d : FP) (tbl : List StudentF) :
    gpaValsF k (updateGpaByF k2 d tbl) = gpaValsF k tbl := by
  induction tbl with
  | nil => rfl
  | cons s t ih =>
      simp only [updateGpaByF, List.map] at ih ⊢
      by_cases h : s.name = k2
      · have hk : ¬ s.name = k := by
          intro hk
          exact hne (hk ▸ h)
        simp only [gpaValsF, h, if_pos, hk, if_neg, if_false]
        rw [ih, if_neg fun e => hne e.symm, if_neg fun e => hne e.symm]
      · simp only [gpaValsF, h, if_neg, if_false]
        rw [ih]

theorem gpaValsF_eq_nil (k : String) (tbl : List StudentF)
    (h : countNameF k tbl = 0) : gpaValsF k tbl = [] := by
  induction tbl with
  | nil => rfl
  | cons s t ih =>
      by_cases hs : s.name = k
      · simp [countNameF, hs] at h
      · simp [countNameF, hs] at h
        simp [gpaValsF, hs, ih h]

/-- The two rows SECTION 8 operates on, with the doubles the store
holds when the transfer runs: Alice the parse of 3.8 (SECTION 3), Bob
the parse of 3.9 (set by SECTION 5), in a clean transaction state. -/
def aliceRowF : StudentF :=
  ⟨1, "Alice Johnson", "alice@email.com", 20, floatOfDecimal 38 10, 1⟩

def bobRowF : StudentF :=
  ⟨2, "Bob Smith", "bob@email.com", 22, floatOfDecimal 39 10, 1⟩

def dbFAB : DBF :=
  ⟨[aliceRowF, bobRowF], [aliceRowF, bobRowF]⟩

/-- C3 counterexample, at the program's own values (source balance the
double 3.8, destination the double 3.9, amount the double 0.2, a valid
input: both keys match exactly one row and the source balance exceeds
the amount).  The committed source balance is fl(3.8 - 0.2) =
3.5999999999999996 and the destination fl(3.9 + 0.2): the source's
decrease is neither the double 0.2 nor 1/5, the destination's increase
is not the double 0.2, and the sum of the two balances is not its
pre-call value (it drops by 2 ^ (-51)).  Binary64 rounding breaks all
three exact equalities the claim asserts. -/
theorem transfer_exact_amount_counterexample :
    countNameF "Alice Johnson" dbFAB.working = 1 ∧
    countNameF "Bob Smith" dbFAB.working = 1 ∧
    leFP (floatOfDecimal 2 10) (floatOfDecimal 38 10) = true ∧
    (transferGpaF "Alice Johnson" "Bob Smith" (floatOfDecimal 2 10) noFault dbFAB).success
      = true ∧
    gpaValsF "Alice Johnson"
        (transferGpaF "Alice Johnson" "Bob Smith" (floatOfDecimal 2 10) noFault dbFAB).db.committed
      = [⟨8106479329266892, -51⟩] ∧
    gpaValsF "Bob Smith"
        (transferGpaF "Alice Johnson" "Bob Smith" (floatOfDecimal 2 10) noFault dbFAB).db.committed
      = [⟨4616189618054758, -50⟩] ∧
    toRat (floatOfDecimal 38 10) - toRat (⟨8106479329266892, -51⟩ : FP)
      ≠ toRat (floatOfDecimal 2 10) ∧
    toRat (floatOfDecimal 38 10) - toRat (⟨8106479329266892, -51⟩ : FP) ≠ 1/5 ∧
    toRat (⟨4616189618054758, -50⟩ : FP) - toRat (floatOfDecimal 39 10)
      ≠ toRat (floatOfDecimal 2 10) ∧
    toRat (⟨8106479329266892, -51⟩ : FP) + toRat (⟨4616189618054758, -50⟩ : FP)
      ≠ toRat (floatOfDecimal 38 10) + toRat (floatOfDecimal 39 10) := by
  have e38 : floatOfDecimal 38 10 = ⟨8556839292003942, -51⟩ := by decide
  have e39 : floatOfDecimal 39 10 = ⟨8782019273372467, -51⟩ := by decide
  have e02 : floatOfDecimal 2 10 = ⟨7205759403792794, -55⟩ := by decide
  refine ⟨by decide, by decide, by decide, by decide, by decide, by decide, ?_, ?_, ?_, ?_⟩
  · rw [e38, e02]
    norm_num [toRat]
  · rw [e38]
    norm_num [toRat]
  · rw [e39, e02]
    norm_num [toRat]
  · rw [e38, e39]
    norm_num [toRat]

/-- C3 (amended): for distinct keys each matching exactly one row,
with the source balance at least the amount, a successful transfer
commits the table in which every source-matching balance has become
the correctly rounded double difference fl(balance - amount) and every
destination-matching balance the correctly rounded double sum
fl(balance + amount).  The decrease and increase equal the amount, and
the balance sum is preserved, only up to binary64 rounding — not
exactly; at the program's own values (3.8, 3.9, 0.2) all three exact
equalities fail. -/
theorem transfer_moves_amount (src dst : String) (amt : FP) (env : FaultEnv) (db : DBF)
    (hne : src ≠ dst)
    (hs : countNameF src db.working = 1)
    (hd : countNameF dst db.working = 1)
    (hbal : ∀ g ∈ gpaValsF src db.working, leFP amt g = true)
    (hok : (transferGpaF src dst amt env db).success = true) :
    gpaValsF src (transferGpaF src dst amt env db).db.committed
      = (gpaValsF src db.working).map (fun g => subFP g amt) ∧
    gpaValsF dst (transferGpaF src dst amt env db).db.committed
      = (gpaValsF dst db.working).map (fun g => addFP g amt) := by
  obtain ⟨f1, f2⟩ := env
  cases f1
  · cases f2
    · have hc : (transferGpaF src dst amt ⟨false, false⟩ db).db.committed
          = applyTransferF src dst amt db.working := rfl
      rw [hc]
      unfold applyTransferF
      constructor
      · rw [gpaValsF_updateGpaByF_ne src dst hne, gpaValsF_updateGpaByF_self]
        rfl
      · rw [gpaValsF_updateGpaByF_self,
          gpaValsF_updateGpaByF_ne dst src (fun e => hne e.symm)]
    · simp [transferGpaF] at hok
  · simp [transferGpaF] at hok

theorem transfer_moves_amount_witness :
    gpaValsF "Alice Johnson"
        (transferGpaF "Alice Johnson" "Bob Smith" (floatOfDecimal 2 10) noFault dbFAB).db.committed
      = (gpaValsF "Alice Johnson" dbFAB.working).map
          (fun g => subFP g (floatOfDecimal 2 10)) ∧
    gpaValsF "Bob Smith"
        (transferGpaF "Alice Johnson" "Bob Smith" (floatOfDecimal 2 10) noFault dbFAB).db.committed
      = (gpaValsF "Bob Smith" dbFAB.working).map
          (fun g => addFP g (floatOfDecimal 2 10)) :=
  transfer_moves_amount "Alice Johnson" "Bob Smith" (floatOfDecimal 2 10) noFault dbFAB
    (by decide) (by decide) (by decide) (by decide) (by decide)

def dbFAliceOnly : DBF :=
  ⟨[aliceRowF], [aliceRowF]⟩

def dbFBobOnly : DBF :=
  ⟨[bobRowF], [bobRowF]⟩

/-- C5 counterexample: with a destination key matching no row, the
destination UPDATE simply affects zero rows and raises no error, so
the operation does not fail: it commits, and the source's committed
balance is fl(3.8 - 0.2) = 3.5999999999999996, no longer its pre-call
value (the double 3.8) — the claimed failure and rollback do not
happen. -/
theorem missing_destination_counterexample :
    countNameF "Nobody" dbFAliceOnly.working = 0 ∧
    (transferGpaF "Alice Johnson" "Nobody" (floatOfDecimal 2 10) noFault dbFAliceOnly).success
      = true ∧
    gpaValsF "Alice Johnson"
        (transferGpaF "Alice Johnson" "Nobody" (floatOfDecimal 2 10) noFault
          dbFAliceOnly).db.committed
      ≠ gpaValsF "Alice Johnson" dbFAliceOnly.working := by
  decide

/-- C5 (amended): when the destination key matches no record, the
destination UPDATE affects zero rows and raises no error, so absent
store faults the operation commits and reports success: every
source-matching balance becomes the correctly rounded double
difference fl(balance - amount), no destination record is created, and
the amount is silently lost instead of the call failing and rolling
back. -/
theorem missing_destination_commits (src dst : String) (amt : FP) (db : DBF)
    (hne : src ≠ dst)
    (hs : countNameF src db.working = 1)
    (hd : countNameF dst db.working = 0) :
    (transferGpaF src dst amt noFault db).success = true ∧
    gpaValsF src (transferGpaF src dst amt noFault db).db.committed
      = (gpaValsF src db.working).map (fun g => subFP g amt) ∧
    countNameF dst (transferGpaF src dst amt noFault db).db.committed = 0 := by
  have hc : (transferGpaF src dst amt noFault db).db.committed
      = applyTransferF src dst amt db.working := rfl
  refine ⟨rfl, ?_, ?_⟩
  · rw [hc]
    unfold applyTransferF
    rw [gpaValsF_updateGpaByF_ne src dst hne, gpaValsF_updateGpaByF_self]
    rfl
  · rw [hc]
    unfold applyTransferF
    rw [countNameF_updateGpaByF, countNameF_updateGpaByF, hd]

theorem missing_destination_commits_witness :
    (transferGpaF "Alice Johnson" "Nobody" (floatOfDecimal 3 10) noFault dbFAliceOnly).success
      = true ∧
    gpaValsF "Alice Johnson"
        (transferGpaF "Alice Johnson" "Nobody" (floatOfDecimal 3 10) noFault
          dbFAliceOnly).db.committed
      = (gpaValsF "Alice Johnson" dbFAliceOnly.working).map
          (fun g => subFP g (floatOfDecimal 3 10)) ∧
    countNameF "Nobody"
        (transferGpaF "Alice Johnson" "Nobody" (floatOfDecimal 3 10) noFault
          dbFAliceOnly).db.committed = 0 :=
  missing_destination_commits "Alice Johnson" "Nobody" (floatOfDecimal 3 10) dbFAliceOnly
    (by decide) (by decide) (by decide)

/-- C6 counterexample: transferring from the nonexistent key `Zed`, the
source UPDATE affects zero rows and raises no error, so the operation
commits and reports success, and the destination's committed balance
changes from the double 3.9 to fl(3.9 + 0.2) — balances do not remain
at their pre-call values and no failure is reported. -/
theorem missing_source_counterexample :
    countNameF "Zed" dbFBobOnly.working = 0 ∧
    (transferGpaF "Zed" "Bob Smith" (floatOfDecimal 2 10) noFault dbFBobOnly).success = true ∧
    gpaValsF "Bob Smith"
        (transferGpaF "Zed" "Bob Smith" (floatOfDecimal 2 10) noFault dbFBobOnly).db.committed
      ≠ gpaValsF "Bob Smith" dbFBobOnly.working := by
  decide

/-- C6 (amended): when the source key matches no record, the source
UPDATE affects zero rows and no store error is raised; absent store
faults the operation commits and reports success, every
destination-matching balance becomes the correctly rounded double sum
fl(balance + amount), and the (empty) source balance list is unchanged
— no failure is reported to the caller. -/
theorem missing_source_commits (src dst : String) (amt : FP) (db : DBF)
    (hne : src ≠ dst)
    (hs : countNameF src db.working = 0)
    (hd : countNameF dst db.working = 1) :
    (transferGpaF src dst amt noFault db).success = true ∧
    gpaValsF dst (transferGpaF src dst amt noFault db).db.committed
      = (gpaValsF dst db.working).map (fun g => addFP g amt) ∧
    gpaValsF src (transferGpaF src dst amt noFault db).db.committed
      = gpaValsF src db.working := by
  have hc : (transferGpaF src dst amt noFault db).db.committed
      = applyTransferF src dst amt db.working := rfl
  refine ⟨rfl, ?_, ?_⟩
  · rw [hc]
    unfold applyTransferF
    rw [gpaValsF_updateGpaByF_self,
      gpaValsF_updateGpaByF_ne dst src (fun e => hne e.symm)]
  · rw [hc]
    unfold applyTransferF
    rw [gpaValsF_updateGpaByF_ne src dst hne, gpaValsF_updateGpaByF_self,
      gpaValsF_eq_nil src db.working hs]
    rfl

theorem missing_source_commits_witness :
    (transferGpaF "Zed" "Bob Smith" (floatOfDecimal 3 10) noFault dbFBobOnly).success = true ∧
    gpaValsF "Bob Smith"
        (transferGpaF "Zed" "Bob Smith" (floatOfDecimal 3 10) noFault dbFBobOnly).db.committed
      = (gpaValsF "Bob Smith" dbFBobOnly.working).map
          (fun g => addFP g (floatOfDecimal 3 10)) ∧
    gpaValsF "Zed"
        (transferGpaF "Zed" "Bob Smith" (floatOfDecimal 3 10) noFault dbFBobOnly).db.committed
      = gpaValsF "Zed" dbFBobOnly.working :=
  missing_source_commits "Zed" "Bob Smith" (floatOfDecimal 3 10) dbFBobOnly
    (by decide) (by decide) (by decide)

/-- The `students` table with binary64 gpas plus the AUTOINCREMENT
sequence: SECTION 2 drops and recreates the table, so ids are assigned
1, 2, 3, ... in insertion order. -/
structure StudentsDBF where
  tbl : List StudentF
  seq : Nat
deriving DecidableEq, Repr

/-- `INSERT INTO students (name, email, age, gpa) VALUES (?, ?, ?, ?)`
(SECTION 3, lines 86-89) with the gpa parameter the double parsed from
the script's literal.  The store enforces `email TEXT UNIQUE`
(SECTION 11 demonstrates the IntegrityError); otherwise the row is
appended with the next id and the `enrolled` default 1. -/
def insertStudentF (nm email : String) (age : Int) (gpa : FP) (db : StudentsDBF) :
    Except String StudentsDBF :=
  match db.tbl.any fun s => s.email = email with
  | true => Except.error "UNIQUE constraint failed: students.email"
  | false => Except.ok ⟨db.tbl ++ [⟨db.seq + 1, nm, email, age, gpa, 1⟩], db.seq + 1⟩

/-- `UPDATE students SET gpa = ? WHERE name = ?` (SECTION 5, lines
230-234): an absolute assignment of the bound double, no arithmetic. -/
def setGpaF (key : String) (g : FP) (tbl : List StudentF) : List StudentF :=
  tbl.map fun s => if s.name = key then { s with gpa := g } else s

/-- `UPDATE students SET gpa = gpa + 0.1 WHERE age > ?` (SECTION 5,
lines 241-245): each matching row stores the correctly rounded double
sum. -/
def raiseGpaOverF (cutoff : Int) (d : FP) (tbl : List StudentF) : List StudentF :=
  tbl.map fun s => if cutoff < s.age then { s with gpa := addFP s.gpa d } else s

/-- `DELETE FROM students WHERE name = ?` (SECTION 6, line 276). -/
def deleteByNameF (key : String) (tbl : List StudentF) : List StudentF :=
  tbl.filter fun s => ¬ s.name = key

/-- `DELETE FROM students WHERE gpa < ?` (SECTION 6, line 281): the
comparison is the numeric order of the stored doubles. -/
def deleteGpaBelowF (c : FP) (tbl : List StudentF) : List StudentF :=
  tbl.filter fun s => !(ltFP s.gpa c)

/-- The table right after SECTION 2: `DROP TABLE IF EXISTS students`
followed by `CREATE TABLE students ...` leaves an empty table and a
fresh id sequence. -/
def freshStudentsF : StudentsDBF :=
  ⟨[], 0⟩

/-- SECTION 3: the six inserts of helpsheet.py lines 86-110, in program
order (Alice, then the executemany batch Bob/Carol/David/Eve, then
Frank), each gpa the double parsed from the script's literal. -/
def scriptAfterInsertsF : Except String StudentsDBF :=
  insertStudentF "Alice Johnson" "alice@email.com" 20 (floatOfDecimal 38 10) freshStudentsF >>=
  insertStudentF "Bob Smith" "bob@email.com" 22 (floatOfDecimal 35 10) >>=
  insertStudentF "Carol White" "carol@email.com" 21 (floatOfDecimal 39 10) >>=
  insertStudentF "David Brown" "david@email.com" 23 (floatOfDecimal 32 10) >>=
  insertStudentF "Eve Davis" "eve@email.com" 20 (floatOfDecimal 37 10) >>=
  insertStudentF "Frank Miller" "frank@email.com" 22 (floatOfDecimal 36 10)

/-- SECTION 5: set Bob Smith's gpa to the double 3.9, then add the
double 0.1 to the gpa of every student with age > 22 (lines 230-245). -/
def scriptAfterUpdatesF : Except String StudentsDBF :=
  scriptAfterInsertsF >>= fun d =>
    Except.ok ⟨raiseGpaOverF 22 (floatOfDecimal 1 10)
      (setGpaF "Bob Smith" (floatOfDecimal 39 10) d.tbl), d.seq⟩

/-- SECTION 6: insert Test Student (19, 2.5), delete by that name, then
delete every row with gpa < 3.0 (lines 268-281). -/
def scriptAfterDeletesF : Except String StudentsDBF :=
  (scriptAfterUpdatesF >>=
      insertStudentF "Test Student" "test@email.com" 19 (floatOfDecimal 25 10)) >>=
    fun d => Except.ok
      ⟨deleteGpaBelowF (floatOfDecimal 30 10) (deleteByNameF "Test Student" d.tbl), d.seq⟩

/-- The committed table at the start of SECTION 8 (the state the
`Before:` SELECT of line 342 reads). -/
def tableAtSection8F : List StudentF :=
  match scriptAfterDeletesF with
  | Except.ok d => d.tbl
  | Except.error _ => []

/-- The concrete SECTION 8 run of the script: transfer the double 0.2
from Alice Johnson to Bob Smith on the section-8 table, fault-free. -/
def transferAtSection8F : TransferResultF :=
  transferGpaF "Alice Johnson" "Bob Smith" (floatOfDecimal 2 10) noFault
    ⟨tableAtSection8F, tableAtSection8F⟩

/-- C4 counterexample: at the point where the transfer executes, Bob
Smith's balance is the double parsed from 3.9 (SECTION 5 set it before
SECTION 8 runs), whose value is not 3.5, and after the transfer it is
fl(3.9 + 0.2), whose value is not 3.7. -/
theorem script_balances_counterexample :
    gpaValsF "Bob Smith" tableAtSection8F = [floatOfDecimal 39 10] ∧
    toRat (floatOfDecimal 39 10) ≠ 35/10 ∧
    gpaValsF "Bob Smith" transferAtSection8F.db.committed = [⟨4616189618054758, -50⟩] ∧
    toRat (⟨4616189618054758, -50⟩ : FP) ≠ 37/10 := by
  have e39 : floatOfDecimal 39 10 = ⟨8782019273372467, -51⟩ := by decide
  refine ⟨by decide, ?_, by decide, ?_⟩
  · rw [e39]
    norm_num [toRat]
  · norm_num [toRat]

/-- C4 (amended): in the concrete run, at the transfer point the
balances are A (Alice Johnson): the double parsed from 3.8, and B (Bob
Smith): the double parsed from 3.9 — SECTION 5 overwrote Bob's initial
3.5 before SECTION 8 runs.  After transferring 0.2, A holds
fl(3.8 - 0.2) = 3.5999999999999996 (mantissa 8106479329266892 at
2 ^ (-51), one unit in the last place below the double 3.6 — not 3.6),
and B holds fl(3.9 + 0.2), which is exactly the double parsed from 4.1
(printed 4.1); the transfer commits. -/
theorem script_transfer_balances :
    gpaValsF "Alice Johnson" tableAtSection8F = [floatOfDecimal 38 10] ∧
    gpaValsF "Bob Smith" tableAtSection8F = [floatOfDecimal 39 10] ∧
    gpaValsF "Alice Johnson" transferAtSection8F.db.committed
      = [subFP (floatOfDecimal 38 10) (floatOfDecimal 2 10)] ∧
    subFP (floatOfDecimal 38 10) (floatOfDecimal 2 10) = ⟨8106479329266892, -51⟩ ∧
    floatOfDecimal 36 10 = ⟨8106479329266893, -51⟩ ∧
    toRat (⟨8106479329266892, -51⟩ : FP) ≠ 36/10 ∧
    gpaValsF "Bob Smith" transferAtSection8F.db.committed
      = [addFP (floatOfDecimal 39 10) (floatOfDecimal 2 10)] ∧
    addFP (floatOfDecimal 39 10) (floatOfDecimal 2 10) = floatOfDecimal 41 10 ∧
    transferAtSection8F.success = true := by
  refine ⟨by decide, by decide, by decide, by decide, by decide, ?_, by decide, by decide,
    by decide⟩
  norm_num [toRat]
